import Mathlib

/-!
Verification of the provisioning core of `Metatrader/start.py`
(class `MT5Installer`): the caching, integrity-checked download manager
(`download_file`, `_verify_checksum`, `_get_cache_metadata`,
`_save_cache_metadata`), the MT5 installation step (`install_mt5`),
the process cleanup (`cleanup`), and the fallback configuration object
(`DefaultSettings`).

Model conventions:
- file contents are byte lists (`Content := List Nat`);
- hashes are hex strings (`Hash := String`), and the SHA-256 digest of
  `hashlib` is an environment-supplied function `hashFn : Content → Hash`;
- wall-clock times and timestamps are in whole seconds (`Nat`);
- the process-wide cancellation flag `killer.kill_now` is monotone in real
  executions; it is modelled as the sequence of values observed at the
  successive poll points of one call (`kill : Nat → Bool`, poll 0 being the
  check at function entry);
- Python exceptions are explicit: the body of a `try:` block is a function
  into `PyResult`, whose `raised` constructor carries the exception and the
  state at the raise point; an `except Exception` handler is a match on it.
-/

/-- File contents: a list of bytes. -/
abbrev Content := List Nat

/-- A content hash rendered as a hex string (the output of `hexdigest()`). -/
abbrev Hash := String

/-- The static known-checksum table `KNOWN_CHECKSUMS` of `start.py`
(lines 57-60), mapping artifact filename to expected SHA-256 hex digest. -/
def KNOWN_CHECKSUMS : List (String × Hash) :=
  [("wine-mono-8.0.0-x86.msi",
    "3f7b1cd6b7842c09142082e50ece97abe848a033a0838f029c35ce973926c275"),
   ("python-3.9.0.exe",
    "fd2e4c52fb5a0f6c0d7f8c31131a21c57b0728d9e8b3ed7c207ceea8f1078918")]

/-- `KNOWN_CHECKSUMS.get(filename)` (line 182): dictionary lookup by
filename, `none` when the filename is not in the table. -/
def knownChecksumLookup (filename : String) : Option Hash :=
  (KNOWN_CHECKSUMS.find? (fun p => p.1 == filename)).map (fun p => p.2)

/-- The `timestamp` field of a parsed metadata record, as the code reads it
with `metadata.get('timestamp', '')` followed by `datetime.fromisoformat`
(line 149): the key can be absent (so `fromisoformat` gets `''` and raises
`ValueError`), present but not ISO-8601 (again `ValueError`), or a valid
timestamp, modelled in seconds. -/
inductive TsField
  | absent
  | malformed
  | valid (t : Nat)
deriving DecidableEq, Repr

/-- The on-disk sidecar metadata file for a locator
(`<md5(url)>.meta`): either text that `json.load` rejects, or a JSON
object with an optional `timestamp` field; `hasOtherKeys` records whether
the object has any further keys (such as `checksum`), which matters only
for the dictionary's truthiness at line 148. -/
inductive MetaFile
  | badJson
  | goodJson (ts : TsField) (hasOtherKeys : Bool)
deriving DecidableEq, Repr

/-- Python exceptions that the modelled code can raise. -/
inductive PyExc
  | jsonDecodeError
  | valueError
  | requestError
  | fileExistsError
  | attributeError (attr : String)
  | calledProcessError
deriving DecidableEq, Repr

/-- The filesystem and I/O state a single `download_file` call touches,
for one locator (`url`) and destination:
`cacheFile` is the file at `cache_dir / dest_path.name`;
`cacheMeta` the sidecar at `cache_dir / md5(url).meta`;
`destFile` the file at `dest_path`;
`net` counts calls to `session.get` (one per fetch that reaches line 156;
the transport-level retries of the mounted `HTTPAdapter` are internal to
one such call); `verifyCalls` counts calls to `_verify_checksum`. -/
structure St where
  cacheFile : Option Content
  cacheMeta : Option MetaFile
  destFile : Option Content
  net : Nat
  verifyCalls : Nat
deriving DecidableEq, Repr

/-- Outcome of a Python call: normal return of a boolean, or a raised
exception, each with the state at that point. -/
inductive PyResult
  | ret (b : Bool) (s : St)
  | raised (e : PyExc) (s : St)
deriving DecidableEq, Repr

/-- The state component of an outcome. -/
def PyResult.st : PyResult → St
  | .ret _ s => s
  | .raised _ s => s

/-- The environment of one `download_file` call: its arguments
(`expected_checksum`, the destination filename `dest_path.name`), the
current wall clock, the network's answer for the url (`none` when
`session.get`/`raise_for_status` raises after exhausting the adapter's
retries, `some chunks` for a streamed 200 response), the digest function,
and the observed cancellation flag per poll point. -/
structure Env where
  expected_checksum : Option Hash
  filename : String
  now : Nat
  response : Option (List Content)
  hashFn : Content → Hash
  kill : Nat → Bool

/-- `timedelta(days=7)` from line 150, in seconds. Note the code writes
the literal `7` here; it does not read `settings.cache_ttl_days`. -/
def ttlSeconds : Nat := 7 * 24 * 60 * 60

/-- `_get_cache_metadata` (lines 122-128): absent file yields the empty
dict `{}` (modelled `none`); unparsable JSON raises; otherwise the parsed
object, as the pair (timestamp field, other-keys flag). -/
def readMeta : Option MetaFile → Except PyExc (Option (TsField × Bool))
  | none => .ok none
  | some .badJson => .error .jsonDecodeError
  | some (.goodJson ts hasOther) => .ok (some (ts, hasOther))

/-- Truthiness of the dict returned by `_get_cache_metadata`, as tested by
`and cache_metadata` at line 148: the empty dict is falsy; a dict is
nonempty iff it has a `timestamp` key or some other key. -/
def metaTruthy : Option (TsField × Bool) → Bool
  | none => false
  | some (ts, hasOther) =>
    match ts with
    | .absent => hasOther
    | _ => true

/-- The timestamp field of a parsed metadata dict; for the empty dict,
`get('timestamp', '')` yields `''`, i.e. the same behaviour as an absent
key. -/
def tsOfMeta : Option (TsField × Bool) → TsField
  | none => .absent
  | some (ts, _) => ts

/-- Concatenation of a chunk list (the full body written by the streaming
loop). -/
def joinC : List Content → Content
  | [] => []
  | c :: rest => c ++ joinC rest

/-- The chunked write loop of lines 167-178: before each chunk the
cancellation flag is polled (poll indices `i, i+1, ...`); if it is set the
function returns with the bytes written so far (second component `true`
means aborted), otherwise the chunk is appended (an empty chunk appends
nothing, matching `if chunk:`). -/
def writeChunks (kill : Nat → Bool) : List Content → Nat → Content → Content × Bool
  | [], _, acc => (acc, false)
  | c :: rest, i, acc =>
    if kill i then (acc, true)
    else writeChunks kill rest (i + 1) (acc ++ c)

/-- Resolution of the expected hash at line 182,
`expected_checksum or KNOWN_CHECKSUMS.get(filename)`: Python `or` takes
the table value when the explicit argument is `None` or the falsy empty
string. -/
def resolveExpected (explicit : Option Hash) (filename : String) : Option Hash :=
  match explicit with
  | some h => if h = "" then knownChecksumLookup filename else some h
  | none => knownChecksumLookup filename

/-- `_verify_checksum` (lines 106-120): with no (or a falsy empty) expected
checksum it passes with a warning; otherwise it compares the computed
digest with the expected one. -/
def verify_checksum (hashFn : Content → Hash) (c : Content) (expected : Option Hash) : Bool :=
  match expected with
  | none => true
  | some h => if h = "" then true else if hashFn c = h then true else false

/-- The download phase of `download_file` (lines 155-196), entered when the
cache did not serve the request: issue the GET (counting one network
request; a transport failure raises), stream the body to `dest_path`
polling the flag per chunk (abort returns `False` and leaves the partial
file), then resolve the expected hash and run `_verify_checksum` (on
failure unlink `dest_path` and return `False`), then hard-link the
destination file into the cache — `dest_path.link_to(cache_file)` raises
`FileExistsError` when the cache file already exists — and persist the
metadata record `{timestamp: now, checksum: ...}` before returning
`True`. -/
def downloadPart (env : Env) (s : St) : PyResult :=
  let s1 : St := { s with net := s.net + 1 }
  match env.response with
  | none => .raised .requestError s1
  | some chunks =>
    match writeChunks env.kill chunks 1 [] with
    | (written, true) => .ret false { s1 with destFile := some written }
    | (written, false) =>
      let s2 : St := { s1 with destFile := some written, verifyCalls := s1.verifyCalls + 1 }
      let expected := resolveExpected env.expected_checksum env.filename
      if verify_checksum env.hashFn written expected then
        match s2.cacheFile with
        | some _ => .raised .fileExistsError s2
        | none =>
          .ret true { s2 with cacheFile := some written,
                              cacheMeta := some (.goodJson (.valid env.now) true) }
      else
        .ret false { s2 with destFile := none }

/-- The body of the `try:` block of `download_file` (lines 138-196):
return `False` at once if the flag is set; read the metadata sidecar
(raising on unparsable JSON); if the cache file exists and the metadata
dict is truthy, parse its timestamp (raising `ValueError` when absent or
malformed) and, when the entry is younger than the hard-coded 7 days,
rename the cache file onto `dest_path` and return `True`; otherwise fall
through to the download phase. -/
def downloadFileAux (env : Env) (s : St) : PyResult :=
  if env.kill 0 then .ret false s
  else
    match readMeta s.cacheMeta with
    | .error e => .raised e s
    | .ok md =>
      if s.cacheFile.isSome && metaTruthy md then
        match tsOfMeta md with
        | .absent => .raised .valueError s
        | .malformed => .raised .valueError s
        | .valid t =>
          if env.now - t < ttlSeconds then
            .ret true { s with cacheFile := none, destFile := s.cacheFile }
          else downloadPart env s
      else downloadPart env s

/-- `download_file` (lines 136-200): the `try` body wrapped by
`except Exception: log; return False`. -/
def download_file (env : Env) (s : St) : PyResult :=
  match downloadFileAux env s with
  | .ret b s' => .ret b s'
  | .raised _ s' => .ret false s'

/-- The fallback configuration class `DefaultSettings` (start.py lines
28-47), used when `config.py` cannot be imported — which is the case in
this repository, whose sources contain no `config` module. Python
attribute lookup on an instance is modelled by the fields below;
`wine_version` is `Option String` because the class body defines **no**
`wine_version` attribute, so `self.settings.wine_version` raises
`AttributeError` — the `none` value stands for that missing entry of the
attribute table. -/
structure DefaultSettings where
  wine_prefix : String
  mt5_port : Nat
  log_level : String
  max_retries : Nat
  download_timeout : Nat
  cache_enabled : Bool
  cache_ttl_days : Nat
  mono_url : String
  python_url : String
  mt5_download_url : String
  required_packages : List String
  wine_version : Option String
deriving DecidableEq, Repr

/-- The attribute values of `DefaultSettings` as written in start.py lines
29-39 (environment-variable fallbacks at their defaults); `wine_version`
is absent from the class body. -/
def defaultSettings : DefaultSettings where
  wine_prefix := "/config/.wine"
  mt5_port := 8001
  log_level := "INFO"
  max_retries := 3
  download_timeout := 300
  cache_enabled := true
  cache_ttl_days := 7
  mono_url := "https://dl.winehq.org/wine/wine-mono/8.0.0/wine-mono-8.0.0-x86.msi"
  python_url := "https://www.python.org/ftp/python/3.9.0/python-3.9.0.exe"
  mt5_download_url := "https://download.mql5.com/cdn/web/metaquotes.ltd/mt5/mt5setup.exe"
  required_packages := ["MetaTrader5==5.0.36", "mt5linux", "pyxdg"]
  wine_version := none

/-- Externally visible actions of the `install_mt5` step, in program
order: the `wine reg add ... /v Version /d <v>` command, the
`download_file` call for the installer, spawning the installer with
`subprocess.Popen`, `process.terminate()`, and `mt5_installer.unlink()`. -/
inductive Mt5Ev
  | regAddVersion (v : String)
  | downloadInstaller
  | popenInstaller
  | terminateInstaller
  | unlinkInstaller
deriving DecidableEq, Repr

/-- Outcome of an installation step: normal return or a raised exception,
each with the trace of external actions performed. -/
inductive StepOutcome
  | done (evs : List Mt5Ev)
  | raised (e : PyExc) (evs : List Mt5Ev)
deriving DecidableEq, Repr

/-- How the polling wait of lines 291-306 ends. -/
inductive WaitOutcome
  | exited
  | timedOut
  | killed
deriving DecidableEq, Repr

/-- The installer wait loop (lines 291-306): while the elapsed time is
below the 300-second timeout it checks the cancellation flag (killed →
terminate and return), then polls the process (`exitAt` is the second at
which the installer exits, `none` if never; exited → break), then sleeps
one second. After the loop, a process still running is terminated
(timed out). `fuel` is the number of remaining loop iterations,
`300 - elapsed`. -/
def mt5WaitLoop (kill : Nat → Bool) (exitAt : Option Nat) : Nat → Nat → WaitOutcome
  | elapsed, 0 =>
    match exitAt with
    | none => .timedOut
    | some t => if elapsed < t then .timedOut else .exited
  | elapsed, fuel + 1 =>
    if kill elapsed then .killed
    else
      match exitAt with
      | some t =>
        if t ≤ elapsed then .exited
        else mt5WaitLoop kill exitAt (elapsed + 1) fuel
      | none => mt5WaitLoop kill exitAt (elapsed + 1) fuel

/-- The environment of one `install_mt5` call: the cancellation flag at
entry (`killNow`) and during the wait loop (`killDuring`, per elapsed
second), whether `terminal64.exe` already exists, the settings object in
scope, whether the `wine reg add` command exits 0, whether the
`download_file` call for the installer returns `True`, and when (if ever)
the spawned installer process exits. -/
structure Mt5Env where
  killNow : Bool
  killDuring : Nat → Bool
  mt5ExeExists : Bool
  settings : DefaultSettings
  regAddOk : Bool
  downloadOk : Bool
  installerExitAt : Option Nat

/-- `install_mt5` (lines 259-313): return at once when cancelled or when
the executable already exists; otherwise build the `wine reg add` argument
list — evaluating `self.settings.wine_version`, which raises
`AttributeError` when the settings object lacks that attribute — run it
through `run_command` (default `check=True`, so a non-zero exit re-raises
`CalledProcessError`), download the installer, and if the download
succeeded spawn the installer and run the bounded wait: on cancellation
terminate and return (no unlink); on timeout terminate, then unlink the
installer; on normal exit just unlink. -/
def install_mt5 (env : Mt5Env) : StepOutcome :=
  if env.killNow then .done []
  else if env.mt5ExeExists then .done []
  else
    match env.settings.wine_version with
    | none => .raised (.attributeError "wine_version") []
    | some v =>
      if env.regAddOk then
        let evs := [Mt5Ev.regAddVersion v, Mt5Ev.downloadInstaller]
        if env.downloadOk then
          let evs := evs ++ [Mt5Ev.popenInstaller]
          match mt5WaitLoop env.killDuring env.installerExitAt 0 300 with
          | .killed => .done (evs ++ [Mt5Ev.terminateInstaller])
          | .exited => .done (evs ++ [Mt5Ev.unlinkInstaller])
          | .timedOut => .done (evs ++ [Mt5Ev.terminateInstaller, Mt5Ev.unlinkInstaller])
        else .done evs
      else .raised .calledProcessError [Mt5Ev.regAddVersion v]

/-- A tracked background process as `cleanup` observes it:
`alreadyExited` is whether `process.poll()` is non-`None` when the loop
reaches it; `exitsWithinGrace` whether, after `terminate()`, the
`wait(timeout=5)` returns before the timeout expires. -/
structure Proc where
  alreadyExited : Bool
  exitsWithinGrace : Bool
deriving DecidableEq, Repr

/-- Actions `cleanup` can apply to one process: `terminate()`, the bounded
`wait(timeout=secs)`, and `kill()`. -/
inductive KAct
  | terminate
  | waitUpTo (secs : Nat)
  | kill
deriving DecidableEq, Repr

/-- The body of the `cleanup` loop for one tracked process (lines
408-414): a process that already exited is skipped; otherwise it is
terminated and waited on for up to 5 seconds, and killed only when that
wait raises `TimeoutExpired`. -/
def cleanupOneActs (p : Proc) : List KAct :=
  if p.alreadyExited then []
  else if p.exitsWithinGrace then [KAct.terminate, KAct.waitUpTo 5]
  else [KAct.terminate, KAct.waitUpTo 5, KAct.kill]

/-- `cleanup` (lines 405-414): iterate over `self.processes` in order,
applying the per-process actions. -/
def cleanup (ps : List Proc) : List (List KAct) :=
  ps.map cleanupOneActs

/-! ### Helper lemmas -/

/-- Every hash in the known-checksum table is a nonempty hex string. -/
lemma knownChecksumLookup_ne_empty {f : String} {h : Hash}
    (hl : knownChecksumLookup f = some h) : h ≠ "" := by
  unfold knownChecksumLookup at hl
  cases hfind : KNOWN_CHECKSUMS.find? (fun p => p.1 == f) with
  | none => simp [hfind] at hl
  | some p =>
    have hmem := List.mem_of_find?_eq_some hfind
    rw [hfind] at hl
    simp only [Option.map_some'] at hl
    simp only [KNOWN_CHECKSUMS, List.mem_cons, List.mem_singleton,
      List.not_mem_nil, or_false] at hmem
    rcases hmem with hp | hp <;> subst hp <;>
      (rw [← Option.some_inj.mp hl]; decide)

/-- A hash resolved at line 182 is never the empty string, so the
comparison branch of `_verify_checksum` really runs on it. -/
lemma resolveExpected_ne_empty {e : Option Hash} {f : String} {h : Hash}
    (hr : resolveExpected e f = some h) : h ≠ "" := by
  cases e with
  | none => exact knownChecksumLookup_ne_empty (by simpa [resolveExpected] using hr)
  | some h₀ =>
    simp only [resolveExpected] at hr
    by_cases h0 : h₀ = ""
    · rw [if_pos h0] at hr
      exact knownChecksumLookup_ne_empty hr
    · rw [if_neg h0] at hr
      rw [← Option.some_inj.mp hr]
      exact h0

/-- If the flag is never observed set at the polls of the write loop, all
chunks are written and the loop does not abort. -/
lemma writeChunks_no_kill (kill : Nat → Bool) :
    ∀ (chunks : List Content) (i : Nat) (acc : Content),
    (∀ j, j < chunks.length → kill (i + j) = false) →
    writeChunks kill chunks i acc = (acc ++ joinC chunks, false) := by
  intro chunks
  induction chunks with
  | nil => intro i acc _; simp [writeChunks, joinC]
  | cons c rest ih =>
    intro i acc hk
    have h0 : kill i = false := by simpa using hk 0 (by simp)
    have hrest : ∀ j, j < rest.length → kill (i + 1 + j) = false := by
      intro j hj
      have := hk (j + 1) (by simpa using Nat.succ_lt_succ hj)
      simpa [Nat.add_assoc, Nat.add_comm 1 j] using this
    rw [writeChunks, h0]
    simp only [Bool.false_eq_true, if_false]
    rw [ih (i + 1) (acc ++ c) hrest]
    simp [joinC, List.append_assoc]

/-- If the flag is first observed set at the poll before chunk `k` (with
`k` a valid chunk index), the write loop stops there: the chunks before
`k` have been written and the loop reports an abort. -/
lemma writeChunks_kill_at (kill : Nat → Bool) :
    ∀ (chunks : List Content) (k i : Nat) (acc : Content),
    k < chunks.length → kill (i + k) = true →
    (∀ j, j < k → kill (i + j) = false) →
    writeChunks kill chunks i acc = (acc ++ joinC (chunks.take k), true) := by
  intro chunks
  induction chunks with
  | nil => intro k i acc hk _ _; simp at hk
  | cons c rest ih =>
    intro k i acc hk hkill hbefore
    cases k with
    | zero =>
      have h0 : kill i = true := by simpa using hkill
      rw [writeChunks, h0]
      simp [joinC]
    | succ k' =>
      have h0 : kill i = false := by simpa using hbefore 0 (Nat.succ_pos _)
      have hkill' : kill (i + 1 + k') = true := by
        simpa [Nat.add_assoc, Nat.add_comm 1 k'] using hkill
      have hbefore' : ∀ j, j < k' → kill (i + 1 + j) = false := by
        intro j hj
        have := hbefore (j + 1) (Nat.succ_lt_succ hj)
        simpa [Nat.add_assoc, Nat.add_comm 1 j] using this
      have hk' : k' < rest.length := Nat.lt_of_succ_lt_succ (by simpa using hk)
      rw [writeChunks, h0]
      simp only [Bool.false_eq_true, if_false]
      rw [ih k' (i + 1) (acc ++ c) hk' hkill' hbefore']
      simp [joinC, List.append_assoc, List.take_succ_cons]

/-- The download phase issues exactly one network request: the counter of
its outcome state is the incoming counter plus one. -/
lemma downloadPart_net (env : Env) (s : St) :
    (downloadPart env s).st.net = s.net + 1 := by
  unfold downloadPart
  cases hr : env.response with
  | none => rfl
  | some chunks =>
    simp only
    cases hw : writeChunks env.kill chunks 1 [] with
    | mk written aborted =>
      cases aborted with
      | true => simp [PyResult.st]
      | false =>
        by_cases hv : verify_checksum env.hashFn written
            (resolveExpected env.expected_checksum env.filename) = true
        · simp only [hv, if_true]
          cases hc : s.cacheFile <;> simp [PyResult.st]
        · simp [hv, PyResult.st]

/-- The `except Exception` wrapper of `download_file` preserves the state
of the outcome. -/
lemma download_file_st (env : Env) (s : St) :
    (download_file env s).st = (downloadFileAux env s).st := by
  unfold download_file
  cases downloadFileAux env s <;> rfl

/-- When the flag is clear at entry, the metadata sidecar is parsable (or
absent) and there is no cached file, `download_file` proceeds to the
download phase. -/
lemma downloadFileAux_miss (env : Env) (s : St)
    (hk : env.kill 0 = false) (hcf : s.cacheFile = none)
    {md : Option (TsField × Bool)} (hro : readMeta s.cacheMeta = .ok md) :
    downloadFileAux env s = downloadPart env s := by
  unfold downloadFileAux
  rw [hk, hro]
  simp [hcf]

/-! ### Claim theorems -/

/-- Common concrete states used by the witnesses below. -/
def stEmpty : St :=
  { cacheFile := none, cacheMeta := none, destFile := none, net := 0, verifyCalls := 0 }

/-- Claim C7: if the cancellation flag is set before a fetch begins,
`download_file` returns failure immediately and performs no network
request and no filesystem modification — the outcome state is exactly the
incoming state. -/
theorem download_file_cancelled_before_start (env : Env) (s : St)
    (h : env.kill 0 = true) :
    download_file env s = .ret false s := by
  unfold download_file downloadFileAux
  rw [h]
  simp

def envC7 : Env :=
  { expected_checksum := none, filename := "mt5setup.exe", now := 0,
    response := some [[1]], hashFn := fun _ => "d", kill := fun _ => true }

theorem download_file_cancelled_before_start_witness :
    download_file envC7 stEmpty = .ret false stEmpty :=
  download_file_cancelled_before_start envC7 stEmpty rfl

/-- Claim C8: whatever happens inside a `download_file` call — metadata
parse errors, network errors, verification failure, cache-population
errors — the call returns a boolean and never propagates an exception:
its outcome is always a `ret`, never a `raised`. -/
theorem download_file_never_raises (env : Env) (s : St) :
    ∃ b s', download_file env s = .ret b s' := by
  unfold download_file
  cases downloadFileAux env s with
  | ret b s' => exact ⟨b, s', rfl⟩
  | raised e s' => exact ⟨false, s', rfl⟩

/-- A fetch environment in which the download would succeed and verify
(the network returns chunks whose digest equals the expected hash), used
against an unparsable metadata sidecar. -/
def envC4 : Env :=
  { expected_checksum := some "H1", filename := "a.exe", now := 100,
    response := some [[3], [4]],
    hashFn := fun c => if c = [3, 4] then "H1" else "bad",
    kill := fun _ => false }

def stC4 : St :=
  { cacheFile := some [3, 4], cacheMeta := some .badJson, destFile := none,
    net := 0, verifyCalls := 0 }

/-- Counterexample to claim C4 as stated: with an unparsable metadata
record, `download_file` does not fall back to a fresh download — the
`json.load` exception propagates to the catch-all handler, so the fetch
returns failure with the state (including the network counter, still 0)
untouched, even though the download would have succeeded and verified. -/
theorem download_file_badmeta_counterexample :
    download_file envC4 stC4 = .ret false stC4 ∧ stC4.net = 0 := by
  exact ⟨rfl, rfl⟩

/-- Claim C4 as amended: if the sidecar metadata record exists but does
not parse, the fetch returns failure without issuing any network request
and without modifying any file — the unparsable record makes the fetch
fail rather than fall back to a download. -/
theorem download_file_badmeta_fails (env : Env) (s : St)
    (hk : env.kill 0 = false) (hm : s.cacheMeta = some .badJson) :
    download_file env s = .ret false s := by
  unfold download_file downloadFileAux
  rw [hk, hm]
  simp [readMeta]

theorem download_file_badmeta_fails_witness :
    download_file envC4 stC4 = .ret false stC4 :=
  download_file_badmeta_fails envC4 stC4 rfl rfl

def envC5 : Mt5Env :=
  { killNow := false, killDuring := fun _ => false, mt5ExeExists := false,
    settings := defaultSettings, regAddOk := true, downloadOk := true,
    installerExitAt := some 10 }

/-- Claim C5 (code bug): under the default configuration (no external
config module, so `DefaultSettings` is in force), with the target
executable absent and cancellation unset, `install_mt5` raises
`AttributeError` on `self.settings.wine_version` — `DefaultSettings`
defines no such attribute — before configuring the Wine version setting
and before invoking the installer: the step performs no external action
at all, contradicting the claim. -/
theorem install_mt5_default_settings_attribute_error :
    install_mt5 envC5 = .raised (.attributeError "wine_version") [] ∧
    defaultSettings.wine_version = none := by
  exact ⟨rfl, rfl⟩

/-- Claim C1: for a fetch with a known expected hash (resolved from the
explicit parameter or the known-checksums table) and no cache entry for
the locator, if the downloaded content's digest differs from the expected
hash then verification fails, the downloaded file is deleted from the
destination, no cache file and no metadata record are created, and the
fetch returns failure; the only state changes are the issued network
request and the verification call. -/
theorem download_file_checksum_mismatch (env : Env) (s : St)
    (chunks : List Content) (h : Hash)
    (hk : ∀ i, env.kill i = false)
    (hcf : s.cacheFile = none) (hcm : s.cacheMeta = none)
    (hresp : env.response = some chunks)
    (hexp : resolveExpected env.expected_checksum env.filename = some h)
    (hne : env.hashFn (joinC chunks) ≠ h) :
    download_file env s =
      .ret false { s with destFile := none, net := s.net + 1,
                          verifyCalls := s.verifyCalls + 1 } := by
  have hro : readMeta s.cacheMeta = .ok none := by rw [hcm]; rfl
  have haux := downloadFileAux_miss env s (hk 0) hcf hro
  have hverify : verify_checksum env.hashFn ([] ++ joinC chunks)
      (resolveExpected env.expected_checksum env.filename) = false := by
    rw [hexp]
    simp only [verify_checksum, List.nil_append]
    rw [if_neg (resolveExpected_ne_empty hexp), if_neg hne]
  unfold download_file
  rw [haux]
  unfold downloadPart
  rw [hresp]
  simp only
  rw [writeChunks_no_kill env.kill chunks 1 [] (fun j _ => hk (1 + j))]
  simp only [hverify, Bool.false_eq_true, if_false]

def envC1 : Env :=
  { expected_checksum := some "OTHER", filename := "w.exe", now := 0,
    response := some [[1], [2]], hashFn := fun _ => "abc", kill := fun _ => false }

theorem download_file_checksum_mismatch_witness :
    download_file envC1 stEmpty =
      .ret false { stEmpty with destFile := none, net := stEmpty.net + 1,
                                verifyCalls := stEmpty.verifyCalls + 1 } :=
  download_file_checksum_mismatch envC1 stEmpty [[1], [2]] "OTHER"
    (fun _ => rfl) rfl rfl rfl (by decide) (by decide)

/-- Claim C2: a fetch whose locator has a valid cache entry younger than
the (7-day) TTL issues no network request, renames the cached file onto
the destination (so the cache file is gone afterwards) with the metadata
record left behind, and returns success; a subsequent fetch for the same
locator misses the cache and issues a network request. -/
theorem download_file_cache_hit_consumes (env : Env) (s : St)
    (c : Content) (t : Nat) (other : Bool) (env2 : Env)
    (hk : env.kill 0 = false)
    (hcf : s.cacheFile = some c)
    (hcm : s.cacheMeta = some (.goodJson (.valid t) other))
    (hfresh : env.now - t < ttlSeconds)
    (hk2 : env2.kill 0 = false) :
    download_file env s = .ret true { s with cacheFile := none, destFile := some c } ∧
    (download_file env2 { s with cacheFile := none, destFile := some c }).st.net
      = s.net + 1 := by
  constructor
  · have haux : downloadFileAux env s
        = .ret true { s with cacheFile := none, destFile := some c } := by
      unfold downloadFileAux
      rw [hk, hcm, hcf]
      simp [readMeta, metaTruthy, tsOfMeta, hfresh]
    unfold download_file
    rw [haux]
  · have hro : readMeta ({ s with cacheFile := none, destFile := some c } : St).cacheMeta
        = .ok (some (.valid t, other)) := by
      simp only [hcm]
      rfl
    have haux := downloadFileAux_miss env2 { s with cacheFile := none, destFile := some c }
      hk2 rfl hro
    rw [download_file_st, haux, downloadPart_net]

def envC2 : Env :=
  { expected_checksum := none, filename := "m.msi", now := 100,
    response := some [[8]], hashFn := fun _ => "d", kill := fun _ => false }

def stC2 : St :=
  { cacheFile := some [7], cacheMeta := some (.goodJson (.valid 50) true),
    destFile := none, net := 0, verifyCalls := 0 }

theorem download_file_cache_hit_consumes_witness :
    download_file envC2 stC2 = .ret true { stC2 with cacheFile := none, destFile := some [7] } ∧
    (download_file envC2 { stC2 with cacheFile := none, destFile := some [7] }).st.net
      = stC2.net + 1 :=
  download_file_cache_hit_consumes envC2 stC2 [7] 50 true envC2 rfl rfl rfl (by decide) rfl

/-- An expired cache entry (timestamp 0, clock at 700000 s ≈ 8.1 days)
whose re-download succeeds and verifies. -/
def envC3 : Env :=
  { expected_checksum := some "H1", filename := "b.exe", now := 700000,
    response := some [[1], [2]],
    hashFn := fun c => if c = [1, 2] then "H1" else "bad",
    kill := fun _ => false }

def stC3 : St :=
  { cacheFile := some [9, 9], cacheMeta := some (.goodJson (.valid 0) true),
    destFile := none, net := 0, verifyCalls := 0 }

/-- Claim C3 (code bug): on an expired cache entry the fetch does issue a
network request (the counter reaches 1), and the download and
verification succeed — but the call then raises `FileExistsError` inside
`dest_path.link_to(cache_file)` because the stale cache file still
exists; the catch-all handler turns this into a `False` return, so the
fetch fails and the cache entry (file and metadata record) is **not**
overwritten, contradicting the claim's success-and-overwrite clause. -/
theorem download_file_expired_refetch_fails :
    ttlSeconds ≤ envC3.now - 0 ∧
    downloadFileAux envC3 stC3 =
      .raised .fileExistsError
        { cacheFile := some [9, 9], cacheMeta := some (.goodJson (.valid 0) true),
          destFile := some [1, 2], net := 1, verifyCalls := 1 } ∧
    download_file envC3 stC3 =
      .ret false
        { cacheFile := some [9, 9], cacheMeta := some (.goodJson (.valid 0) true),
          destFile := some [1, 2], net := 1, verifyCalls := 1 } := by
  exact ⟨by decide, rfl, rfl⟩

/-- The configuration of claim C9: `cache_ttl_days` set to 1 day. -/
def cfgC9 : DefaultSettings := { defaultSettings with cache_ttl_days := 1 }

def envC9 : Env :=
  { expected_checksum := none, filename := "c.exe", now := 172800,
    response := some [[1]], hashFn := fun _ => "d", kill := fun _ => false }

def stC9 : St :=
  { cacheFile := some [5], cacheMeta := some (.goodJson (.valid 0) true),
    destFile := none, net := 0, verifyCalls := 0 }

/-- Claim C9 (code bug): the freshness check of `download_file` does not
consult the configured `cache_ttl_days` — line 150 hard-codes
`timedelta(days=7)`. With `cache_ttl_days = 1` and an entry aged 2 days
(older than the configured TTL), the fetch still serves the entry from
cache with zero network requests, contradicting the claim that freshness
is decided against the configured value. -/
theorem download_file_ignores_cache_ttl_setting :
    86400 * cfgC9.cache_ttl_days ≤ envC9.now - 0 ∧
    download_file envC9 stC9 =
      .ret true
        { cacheFile := none, cacheMeta := some (.goodJson (.valid 0) true),
          destFile := some [5], net := 0, verifyCalls := 0 } := by
  exact ⟨by decide, rfl⟩

/-- Claim C10: if the cancellation flag becomes set during the chunked
write (first observed at the poll before chunk `k`), `download_file`
returns failure with only the chunks before `k` written to the
destination; the cache file, the metadata record and the verification
counter are untouched — verification never ran and no cache entry was
created or updated on this path. -/
theorem download_file_cancel_mid_stream (env : Env) (s : St)
    (chunks : List Content) (k : Nat) (md : Option (TsField × Bool))
    (hk0 : env.kill 0 = false)
    (hcf : s.cacheFile = none)
    (hro : readMeta s.cacheMeta = .ok md)
    (hresp : env.response = some chunks)
    (hklen : k < chunks.length)
    (hkk : env.kill (1 + k) = true)
    (hkj : ∀ j, j < k → env.kill (1 + j) = false) :
    download_file env s =
      .ret false { s with destFile := some (joinC (chunks.take k)),
                          net := s.net + 1 } := by
  have haux := downloadFileAux_miss env s hk0 hcf hro
  unfold download_file
  rw [haux]
  unfold downloadPart
  rw [hresp]
  simp only
  rw [writeChunks_kill_at env.kill chunks k 1 [] hklen hkk hkj]
  simp

def envC10 : Env :=
  { expected_checksum := none, filename := "p.exe", now := 0,
    response := some [[1], [2], [3]], hashFn := fun _ => "d",
    kill := fun i => decide (2 ≤ i) }

theorem download_file_cancel_mid_stream_witness :
    download_file envC10 stEmpty =
      .ret false { stEmpty with destFile := some (joinC ([[1], [2], [3]].take 1)),
                                net := stEmpty.net + 1 } :=
  download_file_cancel_mid_stream envC10 stEmpty [[1], [2], [3]] 1 none
    rfl rfl rfl rfl (by decide) (by decide)
    (fun j hj => by
      have hj0 : j = 0 := Nat.lt_one_iff.mp hj
      subst hj0
      decide)

/-- Claim C6: `cleanup` visits every tracked process; one that is still
running receives a graceful `terminate`, a wait bounded by 5 seconds, and
is force-killed exactly once iff it does not exit within that grace
period; one that already exited, or exits within the grace period, is
never force-killed (kill count 0). -/
theorem cleanup_process_actions (ps : List Proc) (i : Nat) (p : Proc)
    (h : ps[i]? = some p) :
    (cleanup ps)[i]? = some (cleanupOneActs p) ∧
    (KAct.terminate ∈ cleanupOneActs p ↔ p.alreadyExited = false) ∧
    (KAct.waitUpTo 5 ∈ cleanupOneActs p ↔ p.alreadyExited = false) ∧
    (cleanupOneActs p).count KAct.kill =
      (if p.alreadyExited = false ∧ p.exitsWithinGrace = false then 1 else 0) := by
  refine ⟨?_, ?_⟩
  · rw [cleanup, List.getElem?_map, h]
    rfl
  · rcases p with ⟨a, g⟩
    cases a <;> cases g <;> refine ⟨by decide, by decide, by decide⟩

theorem cleanup_process_actions_witness :
    (cleanup [⟨false, false⟩])[0]? = some (cleanupOneActs ⟨false, false⟩) ∧
    (KAct.terminate ∈ cleanupOneActs ⟨false, false⟩ ↔
      (⟨false, false⟩ : Proc).alreadyExited = false) ∧
    (KAct.waitUpTo 5 ∈ cleanupOneActs ⟨false, false⟩ ↔
      (⟨false, false⟩ : Proc).alreadyExited = false) ∧
    (cleanupOneActs ⟨false, false⟩).count KAct.kill =
      (if (⟨false, false⟩ : Proc).alreadyExited = false ∧
          (⟨false, false⟩ : Proc).exitsWithinGrace = false then 1 else 0) :=
  cleanup_process_actions [⟨false, false⟩] 0 ⟨false, false⟩ rfl
